import Mathlib

/-!
Shallow embedding of the x11_get_windows crate (src/session.rs, src/window.rs,
src/util/rwlock.rs) for verification of its specification.

The native X11 server is modelled as the inputs of the embedded functions:
a property-read produces a GetWindowPropertyResponse (the struct returned by
util::get_window_property, whose fields are fixed by the destructuring in
session.rs and window.rs), XGetWMName is an oracle mapping window identifiers
to optional title bytes, and XGetImage is an oracle from requested dimensions
to an optional image. Raw server buffers are lists of byte values; a
slice::from_raw_parts reinterpretation at element width k reads little-endian
k-byte chunks, and the 64-bit target is fixed (usize and XWindow are 8 bytes).
Each XFree call on the property buffer is counted explicitly: the embedded
session functions return their result paired with the number of XFree calls
performed on proper_return.  A Rust panic (Option::unwrap on None) is
modelled as Option.none of the observation.
-/

namespace X11GetWindows

/-- The x11 constant XA_WINDOW (predefined atom number 33). -/
def XA_WINDOW : Nat := 33

/-- Number of bytes in a usize / XWindow on the (fixed, 64-bit) target. -/
def usizeBytes : Nat := 8

/-- Little-endian value of a list of bytes. -/
def readLE : List Nat → Nat
  | [] => 0
  | b :: bs => b + 256 * readLE bs

/-- slice::from_raw_parts(buf as ptr-to-k-byte-elements, n) followed by reading
each element: the n little-endian k-byte chunks of the buffer. -/
def sliceFromRawParts (buf : List Nat) (elemBytes n : Nat) : List Nat :=
  (List.range n).map fun i => readLE ((buf.drop (i * elemBytes)).take elemBytes)

/-- The response struct of util::get_window_property, with the fields that
session.rs and window.rs destructure (the remaining fields are unused there). -/
structure GetWindowPropertyResponse where
  actual_type_return : Nat
  actual_format_return : Nat
  nitems_return : Nat
  proper_return : List Nat
  deriving DecidableEq, Repr

/-- The element byte-width that session.rs / window.rs use for each value of
actual_format_return: 8 -> u8, 16 -> u16, 32 -> usize, anything else
unsupported. -/
def elemBytesOfFormat : Nat → Option Nat
  | 8 => some 1
  | 16 => some 2
  | 32 => some usizeBytes
  | _ => none

/-- Window from src/window.rs: the numeric X window identifier.  The bundled
Rc of the Display carries no decodable state and is dropped in the model. -/
structure Window where
  window : Nat
  deriving DecidableEq, Repr

/-- The NotSupported error type of the crate. -/
inductive NotSupported
  | notSupported
  deriving DecidableEq, Repr

/-- The Null error type of the crate (absent window title). -/
inductive Null
  | null
  deriving DecidableEq, Repr

/-- Oracle for XGetWMName: window identifier to the title bytes the server
reports (already excluding the terminating NUL, as CStr::to_bytes does), or
none when the returned text_property.value pointer is null. -/
def Titles : Type := Nat → Option (List Nat)

/-- Window::get_title from src/window.rs: XGetWMName, then Null on a null
value pointer, otherwise the CStr bytes. -/
def Window.get_title (titles : Titles) (self : Window) : Except Null (List Nat) :=
  match titles self.window with
  | some t => Except.ok t
  | none => Except.error Null.null

/-- Window::match_title from src/window.rs: XGetWMName, then byte-for-byte
comparison of the CStr bytes with the candidate; false on a null pointer. -/
def Window.match_title (titles : Titles) (self : Window) (title : List Nat) : Bool :=
  match titles self.window with
  | some t => decide (t = title)
  | none => false

/-- Session::get_windows from src/session.rs, applied to the successful
response of get_window_property.  Second component: number of XFree calls on
proper_return. -/
def Session.get_windows (r : GetWindowPropertyResponse) :
    Except NotSupported (List Window) × Nat :=
  if r.actual_type_return = XA_WINDOW then
    match r.actual_format_return with
    | 8 =>
      (Except.ok ((sliceFromRawParts r.proper_return 1 r.nitems_return).map Window.mk), 1)
    | 16 =>
      (Except.ok ((sliceFromRawParts r.proper_return 2 r.nitems_return).map Window.mk), 1)
    | 32 =>
      (Except.ok ((sliceFromRawParts r.proper_return usizeBytes r.nitems_return).map Window.mk), 1)
    | _ => (Except.error NotSupported.notSupported, 1)
  else (Except.error NotSupported.notSupported, 1)

/-- Session::get_window_by_name from src/session.rs, applied to the successful
response of get_window_property and the XGetWMName oracle.  Second component:
number of XFree calls on proper_return. -/
def Session.get_window_by_name (titles : Titles) (name : List Nat)
    (r : GetWindowPropertyResponse) : Option Window × Nat :=
  if r.actual_type_return = XA_WINDOW then
    match r.actual_format_return with
    | 8 =>
      (((sliceFromRawParts r.proper_return 1 r.nitems_return).map Window.mk).find?
        (fun it => Window.match_title titles it name), 1)
    | 16 =>
      (((sliceFromRawParts r.proper_return 2 r.nitems_return).map Window.mk).find?
        (fun it => Window.match_title titles it name), 1)
    | 32 =>
      (((sliceFromRawParts r.proper_return usizeBytes r.nitems_return).map Window.mk).find?
        (fun it => Window.match_title titles it name), 1)
    | _ => (none, 1)
  else (none, 1)

/-- Window::active_window from src/window.rs, applied to the successful
response of get_window_property.  Note: the source matches only on
actual_format_return and never inspects actual_type_return.  Second
component: number of XFree calls on response.proper_return. -/
def Window.active_window (r : GetWindowPropertyResponse) :
    Except NotSupported Window × Nat :=
  let window : Option Window :=
    match r.actual_format_return with
    | 8 => ((sliceFromRawParts r.proper_return 1 r.nitems_return).head?).map Window.mk
    | 16 => ((sliceFromRawParts r.proper_return 2 r.nitems_return).head?).map Window.mk
    | 32 =>
      ((sliceFromRawParts r.proper_return usizeBytes r.nitems_return).head?).map Window.mk
    | _ => none
  (match window with
   | some w => Except.ok w
   | none => Except.error NotSupported.notSupported, 1)

/-- XColor from src/window.rs: one BGRA pixel (byte-valued fields). -/
structure XColor where
  b : Nat
  g : Nat
  r : Nat
  pad : Nat
  deriving DecidableEq, Repr

/-- XColor::grayscale_approx: ((b as u16 + g as u16 + r as u16) / 3) as u8.
The u16 sum of three bytes cannot overflow; the final cast is mod 256. -/
def XColor.grayscale_approx (c : XColor) : Nat :=
  ((c.b + c.g + c.r) / 3) % 256

/-- XColor::grayscale: (((19595*r + 38470*g + 7471*b) + (1 << 15)) >> 16) as u8
in u32 arithmetic.  For byte-valued fields the u32 expression cannot overflow;
the final cast is mod 256. -/
def XColor.grayscale (c : XColor) : Nat :=
  ((19595 * c.r + 38470 * c.g + 7471 * c.b + 2 ^ 15) / 2 ^ 16) % 256

/-- The XImage header and pixel memory returned by XGetImage, as session code
observes it: width and height fields plus the pixel data behind the data
pointer. -/
structure XImageM where
  width : Nat
  height : Nat
  data : List XColor
  deriving DecidableEq, Repr

/-- XImg from src/window.rs: owner of a possibly-null XImage pointer. -/
structure XImg where
  img : Option XImageM
  deriving DecidableEq, Repr

/-- Window::capture from src/window.rs: reads width and height from the
window attributes and passes them to XGetImage (the oracle), wrapping the
returned pointer without a null check. -/
def Window.capture (attrWidth attrHeight : Nat)
    (xGetImage : Nat → Nat → Option XImageM) : XImg :=
  XImg.mk (xGetImage attrWidth attrHeight)

/-- The AsRef of XImg: self.img.as_ref().unwrap().  Unwrap of a null pointer
panics, modelled as none. -/
def XImg.asRefOpt (x : XImg) : Option XImageM := x.img

/-- XImg::width: self.as_ref().width as u32 (none = panic on a null image). -/
def XImg.widthOpt (x : XImg) : Option Nat := (XImg.asRefOpt x).map XImageM.width

/-- XImg::height: self.as_ref().height as u32 (none = panic on a null image). -/
def XImg.heightOpt (x : XImg) : Option Nat := (XImg.asRefOpt x).map XImageM.height

/-- The Deref of XImg: len = height() * width(); slice::from_raw_parts(data, len).
none = panic on a null image. -/
def XImg.derefOpt (x : XImg) : Option (List XColor) :=
  match XImg.heightOpt x, XImg.widthOpt x, x.img with
  | some h, some w, some img => some (img.data.take (h * w))
  | _, _, _ => none

/-- Rust slice::windows(size) for size >= 1: all contiguous subslices of the
given length, in order; empty when the slice is shorter than size. -/
def slidingWindows {α : Type} (size : Nat) (l : List α) : List (List α) :=
  if l.length < size then []
  else (List.range (l.length - size + 1)).map fun i => (l.drop i).take size

/-- XImg::rows: self.deref().windows(self.width()).  slice::windows panics when
size = 0, and every observation panics on a null image; both are none. -/
def XImg.rowsOpt (x : XImg) : Option (List (List XColor)) :=
  match XImg.derefOpt x, XImg.widthOpt x with
  | some px, some w => if w = 0 then none else some (slidingWindows w px)
  | _, _ => none

/-- Thread phases while executing RwLockCell::get_or_insert_with from
src/util/rwlock.rs: about to take the read lock and check; saw None, about to
take the write lock; returned. -/
inductive Phase
  | start
  | willWrite
  | finished
  deriving DecidableEq, Repr

/-- The shared state of one RwLock cell: the Option value and a counter of
how many times the init closure f has run. -/
structure LockState where
  cell : Option Nat
  calls : Nat
  deriving DecidableEq, Repr

/-- One atomic step of a thread inside get_or_insert_with.  The read-lock step
checks the cell and releases the lock; the write-lock step assigns
Some(f()) unconditionally, exactly as the source does (there is no second
check under the write lock). -/
def getOrInsertStep (f : Nat → Nat) (s : LockState) (p : Phase) : LockState × Phase :=
  match p with
  | Phase.start =>
    match s.cell with
    | some _ => (s, Phase.finished)
    | none => (s, Phase.willWrite)
  | Phase.willWrite => ({ cell := some (f s.calls), calls := s.calls + 1 }, Phase.finished)
  | Phase.finished => (s, Phase.finished)

/-- Run a schedule (a list of thread indices) of interleaved
get_or_insert_with steps over the shared cell and the per-thread phases. -/
def runSchedule (f : Nat → Nat) :
    List Nat → LockState × List Phase → LockState × List Phase
  | [], st => st
  | t :: rest, (s, phases) =>
    let step := getOrInsertStep f s (phases.getD t Phase.finished)
    runSchedule f rest (step.1, phases.set t step.2)

/-- Title bytes of the string Chrome. -/
def chromeBytes : List Nat := [67, 104, 114, 111, 109, 101]

/-- Title bytes of the string Files. -/
def filesBytes : List Nat := [70, 105, 108, 101, 115]

/-- The synthetic XGetWMName oracle of the specification example: windows 10
and 30 are titled Chrome, window 20 is titled Files. -/
def exampleTitles : Titles := fun n =>
  if n = 10 then some chromeBytes
  else if n = 20 then some filesBytes
  else if n = 30 then some chromeBytes
  else none

/-- The synthetic client-list response of the specification example:
identifiers 10, 20, 30 as 32-bit-format (usize-read) items. -/
def exampleClientList : GetWindowPropertyResponse :=
  { actual_type_return := XA_WINDOW
    actual_format_return := 32
    nitems_return := 3
    proper_return :=
      [10, 0, 0, 0, 0, 0, 0, 0, 20, 0, 0, 0, 0, 0, 0, 0, 30, 0, 0, 0, 0, 0, 0, 0] }

/-- A concrete 2-row, 3-column captured image used to exercise the rows
iterator: six distinct pixels in row-major order. -/
def sixImage : XImageM :=
  { width := 3
    height := 2
    data := [⟨0, 0, 0, 0⟩, ⟨1, 0, 0, 0⟩, ⟨2, 0, 0, 0⟩, ⟨3, 0, 0, 0⟩,
      ⟨4, 0, 0, 0⟩, ⟨5, 0, 0, 0⟩] }

/-- Case split on the property format: one of the three supported widths or
none of them. -/
theorem nat_format_cases (n : Nat) :
    n = 8 ∨ n = 16 ∨ n = 32 ∨ (n ≠ 8 ∧ n ≠ 16 ∧ n ≠ 32) := by
  omega

/-- Head of a nonempty reinterpreted buffer: the first k-byte chunk. -/
theorem head_slice (buf : List Nat) (k n : Nat) (hn : 0 < n) :
    (sliceFromRawParts buf k n).head? = some (readLE (buf.take k)) := by
  unfold sliceFromRawParts
  cases n with
  | zero => omega
  | succ m =>
    rw [List.range_succ_eq_map]
    simp

/-- Normal form of Session.get_windows on a matching type and supported
width. -/
theorem get_windows_ok_support (r : GetWindowPropertyResponse) (k : Nat)
    (hty : r.actual_type_return = XA_WINDOW)
    (hk : elemBytesOfFormat r.actual_format_return = some k) :
    Session.get_windows r =
      (Except.ok ((sliceFromRawParts r.proper_return k r.nitems_return).map Window.mk), 1) := by
  rcases nat_format_cases r.actual_format_return with h | h | h | ⟨h8, h16, h32⟩
  · simp only [elemBytesOfFormat, h] at hk
    cases hk
    simp [Session.get_windows, hty, h]
  · simp only [elemBytesOfFormat, h] at hk
    cases hk
    simp [Session.get_windows, hty, h]
  · simp only [elemBytesOfFormat, h] at hk
    cases hk
    simp [Session.get_windows, hty, h]
  · exfalso
    unfold elemBytesOfFormat at hk
    split at hk <;> simp_all

/-- Session.get_windows on an unsupported width: NotSupported and one free. -/
theorem get_windows_bad_format_support (r : GetWindowPropertyResponse)
    (h8 : r.actual_format_return ≠ 8) (h16 : r.actual_format_return ≠ 16)
    (h32 : r.actual_format_return ≠ 32) :
    Session.get_windows r = (Except.error NotSupported.notSupported, 1) := by
  unfold Session.get_windows
  split
  · split <;> simp_all
  · rfl

/-- Normal form of Session.get_window_by_name on a matching type and
supported width. -/
theorem get_window_by_name_ok_support (titles : Titles) (name : List Nat)
    (r : GetWindowPropertyResponse) (k : Nat)
    (hty : r.actual_type_return = XA_WINDOW)
    (hk : elemBytesOfFormat r.actual_format_return = some k) :
    Session.get_window_by_name titles name r =
      (((sliceFromRawParts r.proper_return k r.nitems_return).map Window.mk).find?
        (fun it => Window.match_title titles it name), 1) := by
  rcases nat_format_cases r.actual_format_return with h | h | h | ⟨h8, h16, h32⟩
  · simp only [elemBytesOfFormat, h] at hk
    cases hk
    simp [Session.get_window_by_name, hty, h]
  · simp only [elemBytesOfFormat, h] at hk
    cases hk
    simp [Session.get_window_by_name, hty, h]
  · simp only [elemBytesOfFormat, h] at hk
    cases hk
    simp [Session.get_window_by_name, hty, h]
  · exfalso
    unfold elemBytesOfFormat at hk
    split at hk <;> simp_all

/-- Session.get_window_by_name on an unsupported width: absence and one
free. -/
theorem get_window_by_name_bad_format_support (titles : Titles) (name : List Nat)
    (r : GetWindowPropertyResponse)
    (h8 : r.actual_format_return ≠ 8) (h16 : r.actual_format_return ≠ 16)
    (h32 : r.actual_format_return ≠ 32) :
    Session.get_window_by_name titles name r = (none, 1) := by
  unfold Session.get_window_by_name
  split
  · split <;> simp_all
  · rfl

/-- Session.get_window_by_name on a mismatched type atom: absence and one
free. -/
theorem get_window_by_name_bad_type_support (titles : Titles) (name : List Nat)
    (r : GetWindowPropertyResponse) (hty : r.actual_type_return ≠ XA_WINDOW) :
    Session.get_window_by_name titles name r = (none, 1) := by
  unfold Session.get_window_by_name
  rw [if_neg hty]

/-- Window.active_window on a supported width and a nonempty property:
the window of the first decoded identifier. -/
theorem active_window_ok_support (r : GetWindowPropertyResponse) (k : Nat)
    (hk : elemBytesOfFormat r.actual_format_return = some k)
    (hn : 0 < r.nitems_return) :
    (Window.active_window r).1 =
      Except.ok (Window.mk (readLE (r.proper_return.take k))) := by
  obtain ⟨m, hm⟩ : ∃ m, r.nitems_return = m + 1 := ⟨r.nitems_return - 1, by omega⟩
  rcases nat_format_cases r.actual_format_return with h | h | h | ⟨h8, h16, h32⟩
  · simp only [elemBytesOfFormat, h] at hk
    cases hk
    simp [Window.active_window, h, hm, sliceFromRawParts, List.range_succ_eq_map]
  · simp only [elemBytesOfFormat, h] at hk
    cases hk
    simp [Window.active_window, h, hm, sliceFromRawParts, List.range_succ_eq_map]
  · simp only [elemBytesOfFormat, h] at hk
    cases hk
    simp [Window.active_window, h, hm, sliceFromRawParts, List.range_succ_eq_map]
  · exfalso
    unfold elemBytesOfFormat at hk
    split at hk <;> simp_all

/-- Window.active_window on an unsupported width: NotSupported and one
free. -/
theorem active_window_bad_format_support (r : GetWindowPropertyResponse)
    (h8 : r.actual_format_return ≠ 8) (h16 : r.actual_format_return ≠ 16)
    (h32 : r.actual_format_return ≠ 32) :
    Window.active_window r = (Except.error NotSupported.notSupported, 1) := by
  unfold Window.active_window
  have hm : (match r.actual_format_return with
      | 8 => ((sliceFromRawParts r.proper_return 1 r.nitems_return).head?).map Window.mk
      | 16 => ((sliceFromRawParts r.proper_return 2 r.nitems_return).head?).map Window.mk
      | 32 =>
        ((sliceFromRawParts r.proper_return usizeBytes r.nitems_return).head?).map Window.mk
      | _ => none) = (none : Option Window) := by
    split <;> simp_all
  simp only [hm]

/-- Window.active_window fails exactly on an empty property or an unsupported
width. -/
theorem active_window_error_iff_support (r : GetWindowPropertyResponse) :
    (Window.active_window r).1 = Except.error NotSupported.notSupported ↔
      r.nitems_return = 0 ∨ elemBytesOfFormat r.actual_format_return = none := by
  rcases nat_format_cases r.actual_format_return with h | h | h | ⟨h8, h16, h32⟩
  · cases hn : r.nitems_return with
    | zero => simp [Window.active_window, h, hn, sliceFromRawParts, elemBytesOfFormat]
    | succ m =>
      simp [Window.active_window, h, hn, sliceFromRawParts, elemBytesOfFormat,
        List.range_succ_eq_map]
  · cases hn : r.nitems_return with
    | zero => simp [Window.active_window, h, hn, sliceFromRawParts, elemBytesOfFormat]
    | succ m =>
      simp [Window.active_window, h, hn, sliceFromRawParts, elemBytesOfFormat,
        List.range_succ_eq_map]
  · cases hn : r.nitems_return with
    | zero => simp [Window.active_window, h, hn, sliceFromRawParts, elemBytesOfFormat]
    | succ m =>
      simp [Window.active_window, h, hn, sliceFromRawParts, elemBytesOfFormat,
        List.range_succ_eq_map]
  · rw [show (Window.active_window r).1 = Except.error NotSupported.notSupported from
      congrArg Prod.fst (active_window_bad_format_support r h8 h16 h32)]
    have he : elemBytesOfFormat r.actual_format_return = none := by
      unfold elemBytesOfFormat
      split <;> simp_all
    simp [he]

/-- List.find? returns the first element satisfying the predicate: its index
has no earlier satisfying index. -/
theorem find_first_support {α : Type} (p : α → Bool) (l : List α) (w : α)
    (h : l.find? p = some w) :
    ∃ i, ∃ hi : i < l.length, l.get ⟨i, hi⟩ = w ∧ p w = true ∧
      ∀ j (hj : j < i), p (l.get ⟨j, Nat.lt_trans hj hi⟩) = false := by
  induction l with
  | nil => simp at h
  | cons a as ih =>
    by_cases hp : p a
    · rw [List.find?_cons_of_pos _ hp] at h
      injection h with h
      subst h
      exact ⟨0, by simp, rfl, hp, fun j hj => (Nat.not_lt_zero j hj).elim⟩
    · rw [List.find?_cons_of_neg _ hp] at h
      obtain ⟨i, hi, hget, hpw, hfirst⟩ := ih h
      refine ⟨i + 1, by simpa using Nat.succ_lt_succ hi, by simpa using hget, hpw, ?_⟩
      intro j hj
      cases j with
      | zero => simpa using hp
      | succ j2 => simpa using hfirst j2 (by omega)

/-- C1 (counterexample): a response whose actual type atom (0) differs from
XA_WINDOW but whose width is 32 and whose property is nonempty makes
Window.active_window return the first identifier instead of NotSupported:
the source never inspects actual_type_return. -/
theorem active_window_wrong_type_counterexample :
    (⟨0, 32, 1, [7, 0, 0, 0, 0, 0, 0, 0]⟩ :
        GetWindowPropertyResponse).actual_type_return ≠ XA_WINDOW ∧
    (Window.active_window ⟨0, 32, 1, [7, 0, 0, 0, 0, 0, 0, 0]⟩).1 =
      Except.ok (Window.mk 7) :=
  ⟨by decide, rfl⟩

/-- C1 (amended): for every property-read response, Window.active_window
ignores the actual type atom entirely; it returns NotSupported exactly when
the property is empty or the element width is not 8, 16, or 32, and
otherwise returns the Window built from the first identifier of the decoded
buffer. -/
theorem active_window_amended_first_identifier (r : GetWindowPropertyResponse) :
    (∀ t, (Window.active_window { r with actual_type_return := t }).1 =
      (Window.active_window r).1) ∧
    ((Window.active_window r).1 = Except.error NotSupported.notSupported ↔
      r.nitems_return = 0 ∨ elemBytesOfFormat r.actual_format_return = none) ∧
    (∀ k, elemBytesOfFormat r.actual_format_return = some k → 0 < r.nitems_return →
      (Window.active_window r).1 =
        Except.ok (Window.mk (readLE (r.proper_return.take k)))) :=
  ⟨fun _ => rfl, active_window_error_iff_support r,
    fun k hk hn => active_window_ok_support r k hk hn⟩

/-- C1 (witness): the amended theorem applied to a 16-bit two-element
property yields the window of the first decoded identifier, 5. -/
theorem active_window_amended_witness :
    (Window.active_window ⟨0, 16, 2, [5, 0, 9, 0]⟩).1 = Except.ok (Window.mk 5) :=
  (active_window_amended_first_identifier ⟨0, 16, 2, [5, 0, 9, 0]⟩).2.2 2 rfl
    (by decide)

/-- C2: on a response whose actual type atom is XA_WINDOW and whose width is
8, 16, or 32, Session.get_windows returns a window list whose length is the
item count and whose i-th element is the identifier read from the i-th
little-endian chunk of the buffer at that width, in server order. -/
theorem get_windows_decodes_count_and_order (r : GetWindowPropertyResponse) (k : Nat)
    (hty : r.actual_type_return = XA_WINDOW)
    (hk : elemBytesOfFormat r.actual_format_return = some k) :
    ∃ ws : List Window,
      (Session.get_windows r).1 = Except.ok ws ∧
      ws.length = r.nitems_return ∧
      ∀ i (hi : i < ws.length),
        ws.get ⟨i, hi⟩ = Window.mk (readLE ((r.proper_return.drop (i * k)).take k)) := by
  refine ⟨(sliceFromRawParts r.proper_return k r.nitems_return).map Window.mk, ?_, ?_, ?_⟩
  · rw [get_windows_ok_support r k hty hk]
  · simp [sliceFromRawParts]
  · intro i hi
    simp [sliceFromRawParts, List.get_eq_getElem]

/-- C2 (witness): a matching 16-bit response with two items decodes to the
two identifiers in order. -/
theorem get_windows_decodes_witness :
    ∃ ws : List Window,
      (Session.get_windows ⟨33, 16, 2, [1, 0, 2, 0]⟩).1 = Except.ok ws ∧
      ws.length = 2 ∧
      ∀ i (hi : i < ws.length),
        ws.get ⟨i, hi⟩ = Window.mk (readLE (([1, 0, 2, 0].drop (i * 2)).take 2)) :=
  get_windows_decodes_count_and_order ⟨33, 16, 2, [1, 0, 2, 0]⟩ 2 rfl rfl

/-- C3: on a response whose width is not 8, 16, or 32, Session.get_windows
returns NotSupported and Session.get_window_by_name returns none, and each
releases the buffer exactly once. -/
theorem unsupported_width_not_supported_one_free (r : GetWindowPropertyResponse)
    (titles : Titles) (name : List Nat)
    (h8 : r.actual_format_return ≠ 8) (h16 : r.actual_format_return ≠ 16)
    (h32 : r.actual_format_return ≠ 32) :
    Session.get_windows r = (Except.error NotSupported.notSupported, 1) ∧
    Session.get_window_by_name titles name r = (none, 1) :=
  ⟨get_windows_bad_format_support r h8 h16 h32,
   get_window_by_name_bad_format_support titles name r h8 h16 h32⟩

/-- C3 (witness): a width-64 response is rejected by both operations with
one free each. -/
theorem unsupported_width_witness :
    Session.get_windows ⟨33, 64, 3, [1, 2, 3]⟩ =
      (Except.error NotSupported.notSupported, 1) ∧
    Session.get_window_by_name (fun _ => none) [] ⟨33, 64, 3, [1, 2, 3]⟩ = (none, 1) :=
  unsupported_width_not_supported_one_free ⟨33, 64, 3, [1, 2, 3]⟩ (fun _ => none) []
    (by decide) (by decide) (by decide)

/-- C4: on every successful property-read response, each of get_windows,
get_window_by_name, and active_window performs exactly one XFree of the
server-allocated buffer, on every control-flow path. -/
theorem buffer_released_exactly_once (r : GetWindowPropertyResponse)
    (titles : Titles) (name : List Nat) :
    (Session.get_windows r).2 = 1 ∧
    (Session.get_window_by_name titles name r).2 = 1 ∧
    (Window.active_window r).2 = 1 := by
  refine ⟨?_, ?_, rfl⟩
  · unfold Session.get_windows
    split
    · split <;> rfl
    · rfl
  · unfold Session.get_window_by_name
    split
    · split <;> rfl
    · rfl

/-- C5: on a matching decoded window list, Session.get_window_by_name returns
the first window in server order whose title matches the candidate
byte-for-byte, returns none when no window matches, and on the example list
of identifiers 10, 20, 30 titled Chrome, Files, Chrome, searching Chrome
returns the window with identifier 10. -/
theorem get_window_by_name_first_match (titles : Titles) (name : List Nat)
    (r : GetWindowPropertyResponse) (k : Nat)
    (hty : r.actual_type_return = XA_WINDOW)
    (hk : elemBytesOfFormat r.actual_format_return = some k) :
    (∀ w, (Session.get_window_by_name titles name r).1 = some w →
      ∃ i, ∃ hi : i <
          ((sliceFromRawParts r.proper_return k r.nitems_return).map Window.mk).length,
        ((sliceFromRawParts r.proper_return k r.nitems_return).map Window.mk).get
            ⟨i, hi⟩ = w ∧
        Window.match_title titles w name = true ∧
        ∀ j (hj : j < i),
          Window.match_title titles
            (((sliceFromRawParts r.proper_return k r.nitems_return).map Window.mk).get
              ⟨j, Nat.lt_trans hj hi⟩) name = false) ∧
    ((∀ w ∈ (sliceFromRawParts r.proper_return k r.nitems_return).map Window.mk,
        Window.match_title titles w name = false) →
      (Session.get_window_by_name titles name r).1 = none) ∧
    (Session.get_window_by_name exampleTitles chromeBytes exampleClientList).1 =
      some (Window.mk 10) := by
  rw [get_window_by_name_ok_support titles name r k hty hk]
  refine ⟨?_, ?_, rfl⟩
  · intro w hw
    exact find_first_support _ _ w hw
  · intro hall
    exact List.find?_eq_none.mpr fun x hx => by simp [hall x hx]

/-- C5 (witness): the theorem applied to the example response returns the
first Chrome-titled window, identifier 10. -/
theorem get_window_by_name_first_match_witness :
    (Session.get_window_by_name exampleTitles chromeBytes exampleClientList).1 =
      some (Window.mk 10) :=
  (get_window_by_name_first_match exampleTitles chromeBytes exampleClientList 8
    rfl rfl).2.2

/-- C6 (counterexample): when XGetImage returns a null buffer (as it does for
a zero-sized request), every observation of the capture result panics: the
AsRef implementation unwraps the null pointer.  Observation is modelled as
Option and the panic as none. -/
theorem capture_null_image_observation_panics :
    XImg.widthOpt (Window.capture 0 5 (fun _ _ => none)) = none ∧
    XImg.heightOpt (Window.capture 0 5 (fun _ _ => none)) = none ∧
    XImg.derefOpt (Window.capture 0 5 (fun _ _ => none)) = none ∧
    XImg.rowsOpt (Window.capture 0 5 (fun _ _ => none)) = none :=
  ⟨rfl, rfl, rfl, rfl⟩

/-- C6 (amended): when the window attributes report width = 0 or height = 0
and the native image call returns a non-null image echoing those dimensions,
Window.capture yields a pixel buffer whose pixel sequence has length zero and
observing width, height, and pixels succeeds; when the native image call
returns a null buffer, observation panics instead. -/
theorem capture_zero_dims_empty_pixels (aw ah : Nat) (g : Nat → Nat → Option XImageM)
    (img : XImageM) (hg : g aw ah = some img)
    (hw : img.width = aw) (hh : img.height = ah) (hz : aw = 0 ∨ ah = 0) :
    XImg.derefOpt (Window.capture aw ah g) = some [] ∧
    XImg.widthOpt (Window.capture aw ah g) = some aw ∧
    XImg.heightOpt (Window.capture aw ah g) = some ah := by
  have hmul : img.height * img.width = 0 := by
    rcases hz with h | h <;> simp [hw, hh, h]
  refine ⟨?_, ?_, ?_⟩ <;>
    (simp [XImg.derefOpt, XImg.widthOpt, XImg.heightOpt, XImg.asRefOpt,
      Window.capture, hg, hw, hh, hmul]
     try tauto)

/-- C6 (witness): capturing a 0-by-5 window whose native image echoes the
requested dimensions yields an empty pixel sequence. -/
theorem capture_zero_dims_witness :
    XImg.derefOpt (Window.capture 0 5 (fun a b => some ⟨a, b, []⟩)) = some [] ∧
    XImg.widthOpt (Window.capture 0 5 (fun a b => some ⟨a, b, []⟩)) = some 0 ∧
    XImg.heightOpt (Window.capture 0 5 (fun a b => some ⟨a, b, []⟩)) = some 5 :=
  capture_zero_dims_empty_pixels 0 5 (fun a b => some ⟨a, b, []⟩) ⟨0, 5, []⟩
    rfl rfl rfl (Or.inl rfl)

/-- C7: the claim that each memoized field resolves exactly once even under
concurrent first access is right about the intent, but the source is wrong:
get_or_insert_with does not re-check the cell after acquiring the write lock,
so under the two-thread schedule read-check by thread 0, read-check by
thread 1, write by thread 0, write by thread 1 the init closure runs twice
and the second write overwrites the first value. -/
theorem rwlock_concurrent_double_resolution :
    (runSchedule (fun n => n) [0, 1, 0, 1]
      ({ cell := none, calls := 0 }, [Phase.start, Phase.start])).1 =
      { cell := some 1, calls := 2 } := by
  decide

/-- C8: grayscale_approx and grayscale are pure functions of the r, g, b
bytes with the stated formulas, and match the reference values on the
triples of the specification. -/
theorem grayscale_pure_formulas (c : XColor)
    (hb : c.b < 256) (hg : c.g < 256) (hr : c.r < 256) :
    XColor.grayscale_approx c = (c.b + c.g + c.r) / 3 ∧
    XColor.grayscale c = (19595 * c.r + 38470 * c.g + 7471 * c.b + 2 ^ 15) / 2 ^ 16 ∧
    XColor.grayscale_approx ⟨30, 60, 90, 0⟩ = 60 ∧
    XColor.grayscale ⟨255, 255, 255, 0⟩ = 255 := by
  refine ⟨?_, ?_, by decide, by decide⟩
  · unfold XColor.grayscale_approx
    apply Nat.mod_eq_of_lt
    omega
  · unfold XColor.grayscale
    apply Nat.mod_eq_of_lt
    have h16 : (2 : Nat) ^ 16 = 65536 := by norm_num
    have h15 : (2 : Nat) ^ 15 = 32768 := by norm_num
    rw [h16, h15]
    omega

/-- C8 (witness): the formulas evaluated at the reference triples of the
specification: blue 30, green 60, red 90 gives 60, and white gives 255. -/
theorem grayscale_pure_witness :
    XColor.grayscale_approx ⟨30, 60, 90, 0⟩ = (30 + 60 + 90) / 3 ∧
    XColor.grayscale ⟨255, 255, 255, 0⟩ = 255 :=
  ⟨(grayscale_pure_formulas ⟨30, 60, 90, 0⟩ (by decide) (by decide) (by decide)).1,
   (grayscale_pure_formulas ⟨255, 255, 255, 0⟩ (by decide) (by decide)
     (by decide)).2.2.2⟩

/-- C9: match_title equals fetching the title of the same window and
comparing raw bytes: true exactly when get_title succeeds with bytes equal to
the candidate, false when the window has no title. -/
theorem match_title_refines_get_title (titles : Titles) (w : Window)
    (name : List Nat) :
    Window.match_title titles w name =
      match Window.get_title titles w with
      | Except.ok t => decide (t = name)
      | Except.error _ => false := by
  unfold Window.match_title Window.get_title
  cases titles w.window <;> rfl

/-- C10: for a captured image of height h and width w with h * w at least w
at least 1, XImg.rowsOpt yields h * w - w + 1 overlapping slices: slice i is
pixels i to i + w of the flat row-major sequence, each slice has length w,
and consecutive slices overlap in w - 1 pixels (slice::windows, not disjoint
row chunks). -/
theorem rows_overlapping_windows (img : XImageM)
    (hdata : img.data.length = img.height * img.width)
    (h1 : 1 ≤ img.width) (h2 : img.width ≤ img.height * img.width) :
    ∃ rows : List (List XColor),
      XImg.rowsOpt (XImg.mk (some img)) = some rows ∧
      rows.length = img.height * img.width - img.width + 1 ∧
      (∀ i (hi : i < rows.length),
        rows.get ⟨i, hi⟩ = (img.data.drop i).take img.width ∧
        (rows.get ⟨i, hi⟩).length = img.width) ∧
      (∀ i (hi : i + 1 < rows.length),
        (rows.get ⟨i, Nat.lt_of_succ_lt hi⟩).drop 1 =
          (rows.get ⟨i + 1, hi⟩).take (img.width - 1)) := by
  have hpx : XImg.derefOpt (XImg.mk (some img)) = some img.data := by
    simp [XImg.derefOpt, XImg.heightOpt, XImg.widthOpt, XImg.asRefOpt, ← hdata]
  have hw0 : ¬ img.width = 0 := by omega
  have hrows : XImg.rowsOpt (XImg.mk (some img)) =
      some (slidingWindows img.width img.data) := by
    simp [XImg.rowsOpt, hpx, XImg.widthOpt, XImg.asRefOpt, hw0]
  have hnl : ¬ img.data.length < img.width := by omega
  have hsw : slidingWindows img.width img.data =
      (List.range (img.data.length - img.width + 1)).map
        (fun i => (img.data.drop i).take img.width) := by
    unfold slidingWindows
    rw [if_neg hnl]
  have hlen : (slidingWindows img.width img.data).length =
      img.data.length - img.width + 1 := by
    rw [hsw]
    simp
  refine ⟨slidingWindows img.width img.data, hrows, by rw [hlen, hdata], ?_, ?_⟩
  · intro i hi
    have hib : i < img.data.length - img.width + 1 := by rw [hlen] at hi; omega
    have hget : (slidingWindows img.width img.data).get ⟨i, hi⟩ =
        (img.data.drop i).take img.width := by
      simp [List.get_eq_getElem]
      rw [List.getElem_of_eq hsw, List.getElem_map]
      congr 1
      rw [List.getElem_range]
    refine ⟨hget, ?_⟩
    rw [hget, List.length_take, List.length_drop]
    omega
  · intro i hi
    have hib : i + 1 < img.data.length - img.width + 1 := by rw [hlen] at hi; omega
    have hget1 : (slidingWindows img.width img.data).get ⟨i, Nat.lt_of_succ_lt hi⟩ =
        (img.data.drop i).take img.width := by
      simp [List.get_eq_getElem]
      rw [List.getElem_of_eq hsw, List.getElem_map]
      congr 1
      rw [List.getElem_range]
    have hget2 : (slidingWindows img.width img.data).get ⟨i + 1, hi⟩ =
        (img.data.drop (i + 1)).take img.width := by
      simp [List.get_eq_getElem]
      rw [List.getElem_of_eq hsw, List.getElem_map]
      congr 1
      rw [List.getElem_range]
    rw [hget1, hget2, List.drop_take, List.drop_drop, List.take_take]
    congr 1
    omega

/-- C10 (witness): the 2-by-3 image yields 4 overlapping length-3 slices. -/
theorem rows_overlapping_witness :
    ∃ rows : List (List XColor),
      XImg.rowsOpt (XImg.mk (some sixImage)) = some rows ∧
      rows.length = sixImage.height * sixImage.width - sixImage.width + 1 ∧
      (∀ i (hi : i < rows.length),
        rows.get ⟨i, hi⟩ = (sixImage.data.drop i).take sixImage.width ∧
        (rows.get ⟨i, hi⟩).length = sixImage.width) ∧
      (∀ i (hi : i + 1 < rows.length),
        (rows.get ⟨i, Nat.lt_of_succ_lt hi⟩).drop 1 =
          (rows.get ⟨i + 1, hi⟩).take (sixImage.width - 1)) :=
  rows_overlapping_windows sixImage (by decide) (by decide) (by decide)

end X11GetWindows
